import Mathlib

/-!
# Verification of the resume-screener backend (`app.py`)

A shallow embedding in Lean 4 of the similarity scorer and the HTTP
handlers of the single-file Flask application `app.py`, together with
theorems settling the specification's claims about them.

Modelling conventions:
* Python strings are Lean `String`s; ASCII behaviour of `str.lower`,
  `str.split`, `str.strip` is modelled exactly, Unicode classes are
  modelled by their ASCII restriction.
* Python `float` arithmetic is modelled by exact real arithmetic (`ℝ`);
  `round(x, 2)` is modelled by rounding to the nearest multiple of 1/100.
* A Python function that can raise returns an `Option`/`Except` here.
* Database commits are explicit state transitions on a `DBState` record.
-/

namespace ResumeScreener

/-- ASCII whitespace as recognised by Python's `str.split()` / `str.strip()`:
space, tab, newline, carriage return, vertical tab, form feed. -/
def isPySpace (c : Char) : Bool :=
  c = ' ' || c = '\t' || c = '\n' || c = '\r' || c = '\x0b' || c = '\x0c'

/-- Python `str.lower()` on one character (ASCII restriction): map
`A`-`Z` to `a`-`z`, leave everything else unchanged. -/
def pyLowerChar (c : Char) : Char :=
  if 65 ≤ c.toNat ∧ c.toNat ≤ 90 then Char.ofNat (c.toNat + 32) else c

/-- Python `str.lower()` (ASCII restriction). -/
def pyLower (s : String) : String :=
  String.mk (s.data.map pyLowerChar)

/-- A word character in the sense of the regex `\w` used by
`TfidfVectorizer`'s default `token_pattern` (ASCII restriction):
letters, digits, underscore. -/
def isWordChar (c : Char) : Bool :=
  c.isAlpha || c.isDigit || c = '_'

/-- Split a character list into the maximal runs of characters satisfying
`p`, discarding separators (the characters not satisfying `p`).  Used both
for Python's `str.split()` (runs of non-whitespace) and for the
`\b\w\w+\b` token pattern (runs of word characters). -/
def splitRuns (p : Char → Bool) : List Char → List Char → List (List Char)
  | [], acc => if acc = [] then [] else [acc.reverse]
  | c :: cs, acc =>
    if p c then splitRuns p cs (c :: acc)
    else if acc = [] then splitRuns p cs []
    else acc.reverse :: splitRuns p cs []

/-- Python `s.split()` on a lowercased-or-not string: maximal runs of
non-whitespace characters, empties discarded. -/
def pySplit (s : String) : List String :=
  (splitRuns (fun c => !isPySpace c) s.data []).map String.mk

/-- Python truthiness of `s.strip()`: `True` iff every character of `s` is
whitespace (so `s.strip()` is the empty string). -/
def isBlank (s : String) : Bool :=
  s.data.all isPySpace

/-- The tokenizer of `TfidfVectorizer`: lowercase the text, then take the
maximal runs of word characters (`\b\w\w+\b`) of length at least 2. -/
def sklearnTokenize (s : String) : List String :=
  ((splitRuns isWordChar (pyLower s).data []).filter (fun r => 2 ≤ r.length)).map String.mk

/-- scikit-learn's built-in English stop word list
(`sklearn.feature_extraction.text.ENGLISH_STOP_WORDS`), selected in
`app.py` by `TfidfVectorizer(stop_words='english')`. -/
def englishStopWords : List String :=
  ["a", "about", "above", "across", "after", "afterwards", "again", "against",
   "all", "almost", "alone", "along", "already", "also", "although", "always",
   "am", "among", "amongst", "amoungst", "amount", "an", "and", "another",
   "any", "anyhow", "anyone", "anything", "anyway", "anywhere", "are",
   "around", "as", "at", "back", "be", "became", "because", "become",
   "becomes", "becoming", "been", "before", "beforehand", "behind", "being",
   "below", "beside", "besides", "between", "beyond", "bill", "both",
   "bottom", "but", "by", "call", "can", "cannot", "cant", "co", "con",
   "could", "couldnt", "cry", "de", "describe", "detail", "do", "done",
   "down", "due", "during", "each", "eg", "eight", "either", "eleven",
   "else", "elsewhere", "empty", "enough", "etc", "even", "ever", "every",
   "everyone", "everything", "everywhere", "except", "few", "fifteen",
   "fifty", "fill", "find", "fire", "first", "five", "for", "former",
   "formerly", "forty", "found", "four", "from", "front", "full", "further",
   "get", "give", "go", "had", "has", "hasnt", "have", "he", "hence", "her",
   "here", "hereafter", "hereby", "herein", "hereupon", "hers", "herself",
   "him", "himself", "his", "how", "however", "hundred", "i", "ie", "if",
   "in", "inc", "indeed", "interest", "into", "is", "it", "its", "itself",
   "keep", "last", "latter", "latterly", "least", "less", "ltd", "made",
   "many", "may", "me", "meanwhile", "might", "mill", "mine", "more",
   "moreover", "most", "mostly", "move", "much", "must", "my", "myself",
   "name", "namely", "neither", "never", "nevertheless", "next", "nine",
   "no", "nobody", "none", "noone", "nor", "not", "nothing", "now",
   "nowhere", "of", "off", "often", "on", "once", "one", "only", "onto",
   "or", "other", "others", "otherwise", "our", "ours", "ourselves", "out",
   "over", "own", "part", "per", "perhaps", "please", "put", "rather", "re",
   "same", "see", "seem", "seemed", "seeming", "seems", "serious", "several",
   "she", "should", "show", "side", "since", "sincere", "six", "sixty",
   "so", "some", "somehow", "someone", "something", "sometime", "sometimes",
   "somewhere", "still", "such", "system", "take", "ten", "than", "that",
   "the", "their", "them", "themselves", "then", "thence", "there",
   "thereafter", "thereby", "therefore", "therein", "thereupon", "these",
   "they", "thick", "thin", "third", "this", "those", "though", "three",
   "through", "throughout", "thru", "thus", "to", "together", "too", "top",
   "toward", "towards", "twelve", "twenty", "two", "un", "under", "until",
   "up", "upon", "us", "very", "via", "was", "we", "well", "were", "what",
   "whatever", "when", "whence", "whenever", "where", "whereafter",
   "whereas", "whereby", "wherein", "whereupon", "wherever", "whether",
   "which", "while", "whither", "who", "whoever", "whole", "whom", "whose",
   "why", "will", "with", "within", "without", "would", "yet", "you",
   "your", "yours", "yourself", "yourselves"]

/-- The analysed token stream of one document: `TfidfVectorizer`'s
tokenizer followed by removal of the English stop words. -/
def analyzedTokens (s : String) : List String :=
  (sklearnTokenize s).filter (fun t => t ∉ englishStopWords)

/-- The vocabulary `fit_transform` builds over the two-document corpus
`[d1, d2]`: every analysed token occurring in at least one document.
(scikit-learn keeps it as a sorted index map; only the set matters for
the cosine value.)  `fit_transform` raises `ValueError` exactly when this
set is empty. -/
def vocab (d1 d2 : String) : Finset String :=
  (analyzedTokens d1).toFinset ∪ (analyzedTokens d2).toFinset

/-- Term frequency: the raw count of term `t` in document `d`'s analysed
token stream. -/
def tf (d t : String) : ℕ :=
  (analyzedTokens d).count t

/-- Document frequency of term `t` over the corpus `[d1, d2]`: the number
of the two documents containing `t`. -/
def df (d1 d2 t : String) : ℕ :=
  (if t ∈ analyzedTokens d1 then 1 else 0) + (if t ∈ analyzedTokens d2 then 1 else 0)

/-- Smoothed inverse document frequency for a 2-document corpus, as
computed by `TfidfVectorizer` (`smooth_idf=True`):
`idf(t) = ln((1 + n)/(1 + df(t))) + 1` with `n = 2`. -/
noncomputable def idf (d : ℕ) : ℝ :=
  Real.log (3 / (1 + (d : ℝ))) + 1

/-- The TF-IDF weight of term `t` for document `d` of the corpus
`[d1, d2]`. -/
noncomputable def tfidfWeight (d1 d2 d t : String) : ℝ :=
  (tf d t : ℝ) * idf (df d1 d2 t)

/-- Dot product of two term-weight vectors over the vocabulary `V`. -/
noncomputable def dotV (V : Finset String) (u v : String → ℝ) : ℝ :=
  ∑ t ∈ V, u t * v t

/-- The inner product of the TF-IDF vectors of documents `a` and `b` in
the vector space fitted on the corpus `[d1, d2]`. -/
noncomputable def gram (d1 d2 a b : String) : ℝ :=
  dotV (vocab d1 d2) (tfidfWeight d1 d2 a) (tfidfWeight d1 d2 b)

open Classical in
/-- The value `cosine_similarity(tfidf_matrix[0:1], tfidf_matrix[1:2])[0][0]`
of `app.py` line 67.  `TfidfVectorizer` L2-normalises each row and
`cosine_similarity` normalises again, so the result is the cosine of the
raw weighted vectors, with an all-zero row (norm 0) treated as norm 1 and
hence similarity 0. -/
noncomputable def similarity (d1 d2 : String) : ℝ :=
  if gram d1 d2 d1 d1 = 0 ∨ gram d1 d2 d2 d2 = 0 then 0
  else gram d1 d2 d1 d2 / (Real.sqrt (gram d1 d2 d1 d1) * Real.sqrt (gram d1 d2 d2 d2))

/-- Python's `round(x, 2)` on the idealised real value: round to the
nearest multiple of 1/100 (`Mathlib.round`; the tie-breaking rule is
immaterial to every claim below). -/
noncomputable def roundTo2 (x : ℝ) : ℝ :=
  ((round (x * 100) : ℤ) : ℝ) / 100

/-- The keyword overlap of `app.py` lines 69-71:
`set(resume_text.lower().split()) & set(job_text.lower().split())`.
Python returns `list(...)` of this set in unspecified iteration order; we
keep the set itself. -/
def keywordsOf (resume_text job_text : String) : Finset String :=
  (pySplit (pyLower resume_text)).toFinset ∩ (pySplit (pyLower job_text)).toFinset

/-- The function `calculate_similarity_with_keywords` (`app.py` lines 64-73).
Returns `none` when `fit_transform` raises `ValueError` (empty
vocabulary: the two texts jointly contain no non-stop-word token of
length ≥ 2); otherwise the pair of the rounded percentage score and the
keyword set. -/
noncomputable def calculate_similarity_with_keywords (resume_text job_text : String) :
    Option (ℝ × Finset String) :=
  if vocab resume_text job_text = ∅ then none
  else some (roundTo2 (similarity resume_text job_text * 100), keywordsOf resume_text job_text)

/-! ## Text extraction (`upload_resume`, `app.py` lines 78-132) -/

/-- Python `s.endswith(suffix)`: the last `|suffix|` characters of `s`
form `suffix`. -/
def pyEndsWith (s suffix : String) : Bool :=
  s.data.drop (s.data.length - suffix.data.length) == suffix.data

/-- A UTF-8 continuation byte (`10xxxxxx`). -/
def isContByte (b : UInt8) : Bool :=
  128 ≤ b.toNat && b.toNat < 192

/-- Worker for `utf8DecodeIgnore`; the fuel (first argument) starts as
the list length and strictly dominates it throughout, so it never runs
out before the input does. -/
def utf8DecodeAux : ℕ → List UInt8 → List Char
  | 0, _ => []
  | _, [] => []
  | fuel + 1, b :: bs =>
    let n := b.toNat
    if n < 128 then Char.ofNat n :: utf8DecodeAux fuel bs
    else if n < 194 then
      -- stray continuation byte, or the always-overlong leads C0/C1
      utf8DecodeAux fuel bs
    else if n < 224 then
      match bs with
      | [] => []
      | b1 :: bs1 =>
        if isContByte b1 then
          Char.ofNat ((n - 192) * 64 + (b1.toNat - 128)) :: utf8DecodeAux fuel bs1
        else utf8DecodeAux fuel bs
    else if n < 240 then
      match bs with
      | b1 :: b2 :: bs2 =>
        if isContByte b1 && isContByte b2
            && !(n == 224 && b1.toNat < 160)      -- overlong
            && !(n == 237 && 160 ≤ b1.toNat) then -- surrogate
          Char.ofNat ((n - 224) * 4096 + (b1.toNat - 128) * 64 + (b2.toNat - 128))
            :: utf8DecodeAux fuel bs2
        else utf8DecodeAux fuel bs
      | _ => utf8DecodeAux fuel bs
    else if n < 245 then
      match bs with
      | b1 :: b2 :: b3 :: bs3 =>
        if isContByte b1 && isContByte b2 && isContByte b3
            && !(n == 240 && b1.toNat < 144)      -- overlong
            && !(n == 244 && 144 ≤ b1.toNat) then -- above U+10FFFF
          Char.ofNat ((n - 240) * 262144 + (b1.toNat - 128) * 4096
              + (b2.toNat - 128) * 64 + (b3.toNat - 128))
            :: utf8DecodeAux fuel bs3
        else utf8DecodeAux fuel bs
      | _ => utf8DecodeAux fuel bs
    else utf8DecodeAux fuel bs

/-- Python `bytes.decode('utf-8', errors='ignore')`: decode the valid
UTF-8 sequences (rejecting overlong encodings, surrogates and
out-of-range code points, as CPython does) and drop the bytes of any
malformed sequence, continuing after them. -/
def utf8DecodeIgnore (bytes : List UInt8) : List Char :=
  utf8DecodeAux bytes.length bytes

/-- One page as surfaced by `pdfplumber`: the embedded text layer
(`page.extract_text()`, with `""` standing for both `None` and the empty
string — the two falsy outcomes the code treats alike) and the text OCR
would produce for the rendered page. -/
structure PdfPage where
  extractText : String
  ocrText : String
deriving DecidableEq

/-- A DOCX document as surfaced by `python-docx`: top-level paragraph
texts, and tables as rows of cell texts. -/
structure DocxDoc where
  paragraphs : List String
  tables : List (List (List String))
deriving DecidableEq

/-- The PDF loop of `upload_resume` (lines 92-100): per page, append the
text layer when truthy, otherwise append the OCR text when its stripped
form is truthy, each followed by a newline. -/
def extractPdfPages (pages : List PdfPage) : String :=
  pages.foldl
    (fun text p =>
      if p.extractText ≠ "" then text ++ p.extractText ++ "\n"
      else if !isBlank p.ocrText then text ++ p.ocrText ++ "\n"
      else text)
    ""

/-- The DOCX branch of `upload_resume` (lines 105-113): append every
paragraph whose stripped text is truthy, then walk tables, rows and cells
and append every cell whose stripped text is truthy, each followed by a
newline. -/
def extractDocx (doc : DocxDoc) : String :=
  doc.tables.foldl
    (fun text tbl =>
      tbl.foldl
        (fun text row =>
          row.foldl
            (fun text cell => if !isBlank cell then text ++ cell ++ "\n" else text)
            text)
        text)
    (doc.paragraphs.foldl
      (fun text p => if !isBlank p then text ++ p ++ "\n" else text) "")

/-- The body of the `try` block of `upload_resume` (lines 88-117):
dispatch on the (already lowercased) filename; the `.pdf` and `.docx`
branches call the external parsers (modelled as oracle arguments whose
`Except.error` is the exception the `with pdfplumber.open` /
`Document(...)` call would raise); any other extension decodes the raw
bytes as UTF-8 ignoring undecodable sequences. -/
def extractUploadText (pdfParse : List UInt8 → Except String (List PdfPage))
    (docxParse : List UInt8 → Except String DocxDoc)
    (filename : String) (bytes : List UInt8) : Except String String :=
  if pyEndsWith filename ".pdf" then (pdfParse bytes).map extractPdfPages
  else if pyEndsWith filename ".docx" then (docxParse bytes).map extractDocx
  else .ok (String.mk (utf8DecodeIgnore bytes))

/-! ## Persistence layer -/

/-- A stored `Resume` row (`app.py` lines 30-33). -/
structure ResumeRec where
  id : ℕ
  filename : String
  content : String
deriving DecidableEq

/-- A stored `Job` row (lines 35-38). -/
structure JobRec where
  id : ℕ
  title : String
  description : String
deriving DecidableEq

/-- A stored `Comparison` row (lines 40-45).  The score is kept as the
exact real; the keyword list is kept as the set Python joins in
unspecified order. -/
structure ComparisonRec where
  id : ℕ
  resume_id : Int
  job_id : Int
  score : ℝ
  keywords : Finset String

/-- The SQLite database visible to the app: the three tables plus their
autoincrement counters. -/
structure DBState where
  resumes : List ResumeRec
  jobs : List JobRec
  comparisons : List ComparisonRec
  nextResumeId : ℕ
  nextJobId : ℕ
  nextComparisonId : ℕ

/-- A fresh database. -/
def emptyDB : DBState := ⟨[], [], [], 1, 1, 1⟩

/-! ## `/upload_resume` handler -/

/-- The responses `upload_resume` can produce.  `noText` is the distinct
`{"error": "No text extracted from resume"}` body (line 120);
`extractionFailed cause` is `{"error": "Failed to extract text: cause"}`
(line 132). -/
inductive UploadResult
  | badRequest (msg : String)
  | extractionFailed (cause : String)
  | noText
  | success (resume_text : String) (resume_id : ℕ)
deriving DecidableEq

/-- HTTP status of each `upload_resume` response. -/
def UploadResult.status : UploadResult → ℕ
  | .badRequest _ => 400
  | .extractionFailed _ => 500
  | .noText => 500
  | .success _ _ => 200

/-- The `/upload_resume` handler (lines 78-132).  `file` is the
`resume` entry of `request.files` (`none` when absent); the filename is
lowercased (line 84) before dispatch and before being stored.  On
success the `Resume` row is committed and its id returned. -/
def upload_resume (pdfParse : List UInt8 → Except String (List PdfPage))
    (docxParse : List UInt8 → Except String DocxDoc)
    (file : Option (String × List UInt8)) (st : DBState) : UploadResult × DBState :=
  match file with
  | none => (.badRequest "No resume file uploaded", st)
  | some (origName, bytes) =>
    match extractUploadText pdfParse docxParse (pyLower origName) bytes with
    | .error e => (.extractionFailed e, st)
    | .ok text =>
      if isBlank text then (.noText, st)
      else
        (.success text st.nextResumeId,
         { st with
            resumes := st.resumes ++ [⟨st.nextResumeId, pyLower origName, text⟩],
            nextResumeId := st.nextResumeId + 1 })

/-! ## `/match` and `/match_multiple` handlers -/

/-- The JSON body of a `/match` request; absent keys are `""` for the
texts (`data.get(..., "")` has no default in the code.. it is
`data.get("resume", "")`) and `none` for the ids (`data.get` default). -/
structure MatchRequest where
  resume : String
  job : String
  resume_id : Option Int
  job_id : Option Int

/-- Python truthiness of an optional integer: `None` and `0` are falsy. -/
def pyTruthyOptInt : Option Int → Bool
  | none => false
  | some n => n != 0

/-- The responses of `/match`.  `serverError` is the unhandled exception
path (Flask turns an uncaught `ValueError` into a plain 500). -/
inductive MatchResult
  | badRequest (msg : String)
  | serverError (msg : String)
  | ok (score : ℝ) (keywords : Finset String)

/-- The `/match` handler (lines 154-173).  A `Comparison` is committed
only when both `resume_id` and `job_id` are truthy (line 167); an empty
TF-IDF vocabulary raises out of the handler, leaving the database
untouched. -/
noncomputable def match_resume (req : MatchRequest) (st : DBState) : MatchResult × DBState :=
  if req.resume = "" ∨ req.job = "" then
    (.badRequest "Resume or job description missing", st)
  else
    match calculate_similarity_with_keywords req.resume req.job with
    | none => (.serverError "ValueError: empty vocabulary", st)
    | some (score, kws) =>
      if pyTruthyOptInt req.resume_id && pyTruthyOptInt req.job_id then
        (.ok score kws,
         { st with
            comparisons := st.comparisons ++
              [⟨st.nextComparisonId, (req.resume_id.getD 0), (req.job_id.getD 0), score, kws⟩],
            nextComparisonId := st.nextComparisonId + 1 })
      else (.ok score kws, st)

/-- The JSON body of a `/match_multiple` request: jobs are
`(title, description)` pairs. -/
structure MultiMatchRequest where
  resume : String
  jobs : List (String × String)
  resume_id : Option Int

/-- One entry of the `results` array of `/match_multiple`. -/
structure MultiResult where
  title : String
  score : ℝ
  keywords : Finset String

/-- The responses of `/match_multiple`. -/
inductive MultiResponse
  | badRequest (msg : String)
  | serverError (msg : String)
  | ok (results : List MultiResult)

/-- The loop of `match_multiple` (lines 186-201).  Each iteration scores
one job, commits a fresh `Job` row, then commits a `Comparison` whose
`resume_id` is taken verbatim from the request: when it is `None` the
`nullable=False` column makes the commit raise `IntegrityError` (SQLite
enforces NOT NULL; it does not enforce the foreign keys by default), so
the loop aborts with the jobs committed so far and no new comparison. -/
noncomputable def match_multiple_loop (resume_text : String) (resume_id : Option Int) :
    List (String × String) → DBState → Except String (List MultiResult) × DBState
  | [], st => (.ok [], st)
  | (title, desc) :: rest, st =>
    match calculate_similarity_with_keywords resume_text desc with
    | none => (.error "ValueError: empty vocabulary", st)
    | some (score, kws) =>
      let st1 : DBState :=
        { st with jobs := st.jobs ++ [⟨st.nextJobId, title, desc⟩],
                  nextJobId := st.nextJobId + 1 }
      match resume_id with
      | none => (.error "IntegrityError: NOT NULL constraint failed: comparison.resume_id", st1)
      | some ri =>
        let st2 : DBState :=
          { st1 with
              comparisons := st1.comparisons ++
                [⟨st1.nextComparisonId, ri, (st.nextJobId : Int), score, kws⟩],
              nextComparisonId := st1.nextComparisonId + 1 }
        match match_multiple_loop resume_text resume_id rest st2 with
        | (.ok rs, st3) => (.ok (⟨title, score, kws⟩ :: rs), st3)
        | (.error e, st3) => (.error e, st3)

/-- The `/match_multiple` handler (lines 175-203). -/
noncomputable def match_multiple (req : MultiMatchRequest) (st : DBState) :
    MultiResponse × DBState :=
  if req.resume = "" ∨ req.jobs = [] then
    (.badRequest "Resume or job descriptions missing", st)
  else
    match match_multiple_loop req.resume req.resume_id req.jobs st with
    | (.ok rs, st') => (.ok rs, st')
    | (.error e, st') => (.serverError e, st')

/-! ## Specification-side definitions and concrete parser oracles

The definitions below restate spec sentences, for comparison against the
code-side definitions above, or instantiate the external parser oracles
at the inputs the claims exercise. -/

/-- The set of lowercase whitespace-split tokens of a raw text, as the
spec words it ("the lowercase whitespace-split token sets of the two raw
texts"). -/
def lowercaseTokenSet (s : String) : Finset String :=
  (pySplit (pyLower s)).toFinset

/-- All table cell texts of a DOCX document, tables then rows then cells,
in document order. -/
def docxCellTexts (doc : DocxDoc) : List String :=
  (doc.tables.map (fun tbl => tbl.flatten)).flatten

/-- Concatenation of the non-blank entries of a list, each followed by a
newline — the building block of the spec's DOCX extraction sentence. -/
def concatLines (l : List String) : String :=
  ((l.filter (fun s => !isBlank s)).map (fun s => s ++ "\n")).foldr (· ++ ·) ""

/-- The spec's wording of DOCX extraction: "concatenate all non-blank
paragraph texts, then all non-blank table cell texts, each followed by a
newline". -/
def specDocxExtract (doc : DocxDoc) : String :=
  concatLines doc.paragraphs ++ concatLines (docxCellTexts doc)

/-- Modelled from the spec (§4.1: extraction "fails with
`ExtractionError` when the underlying parse throws"): `pdfplumber.open`
raises `pdfminer`'s `PDFSyntaxError` on a byte stream that is not a
valid PDF — in particular on the zero-byte stream, the only input this
oracle is applied to in this development. -/
def pdfplumberRaises : List UInt8 → Except String (List PdfPage) :=
  fun _ => .error "No /Root object! - Is this really a PDF?"

/-- Modelled from the spec (§4.1): `docx.Document` raises `BadZipFile`
on a byte stream that is not a ZIP archive — in particular on the
zero-byte stream, the only input this oracle is applied to in this
development. -/
def docxDocumentRaises : List UInt8 → Except String DocxDoc :=
  fun _ => .error "File is not a zip file"

/-- A `python-docx` parse that succeeds with the fixed document `doc`,
used to drive the DOCX branch at concrete inputs. -/
def docxParseConst (doc : DocxDoc) : List UInt8 → Except String DocxDoc :=
  fun _ => .ok doc

/-! ## Scorer lemmas -/

theorem df_le_two (d1 d2 t : String) : df d1 d2 t ≤ 2 := by
  unfold df; split <;> split <;> omega

theorem idf_nonneg {k : ℕ} (hk : k ≤ 2) : 0 ≤ idf k := by
  unfold idf
  have hkR : (k : ℝ) ≤ 2 := by exact_mod_cast hk
  have h1 : (1 : ℝ) ≤ 3 / (1 + (k : ℝ)) := by
    rw [le_div_iff₀ (by positivity)]; linarith
  have := Real.log_nonneg h1
  linarith

theorem tfidfWeight_nonneg (d1 d2 d t : String) : 0 ≤ tfidfWeight d1 d2 d t :=
  mul_nonneg (Nat.cast_nonneg _) (idf_nonneg (df_le_two d1 d2 t))

theorem gram_nonneg (d1 d2 a b : String) : 0 ≤ gram d1 d2 a b := by
  unfold gram dotV
  exact Finset.sum_nonneg fun t _ =>
    mul_nonneg (tfidfWeight_nonneg d1 d2 a t) (tfidfWeight_nonneg d1 d2 b t)

theorem gram_cauchy_schwarz (d1 d2 : String) :
    gram d1 d2 d1 d2 ≤ Real.sqrt (gram d1 d2 d1 d1) * Real.sqrt (gram d1 d2 d2 d2) := by
  unfold gram dotV
  have h := Real.sum_mul_le_sqrt_mul_sqrt (vocab d1 d2)
    (tfidfWeight d1 d2 d1) (tfidfWeight d1 d2 d2)
  simpa [pow_two] using h

theorem similarity_nonneg (d1 d2 : String) : 0 ≤ similarity d1 d2 := by
  unfold similarity
  split
  · exact le_refl 0
  · exact div_nonneg (gram_nonneg d1 d2 d1 d2)
      (mul_nonneg (Real.sqrt_nonneg _) (Real.sqrt_nonneg _))

theorem similarity_le_one (d1 d2 : String) : similarity d1 d2 ≤ 1 := by
  unfold similarity
  split
  · exact zero_le_one
  · rename_i h
    push_neg at h
    obtain ⟨h1, h2⟩ := h
    have p1 : 0 < gram d1 d2 d1 d1 := lt_of_le_of_ne (gram_nonneg d1 d2 d1 d1) (Ne.symm h1)
    have p2 : 0 < gram d1 d2 d2 d2 := lt_of_le_of_ne (gram_nonneg d1 d2 d2 d2) (Ne.symm h2)
    rw [div_le_one (mul_pos (Real.sqrt_pos.2 p1) (Real.sqrt_pos.2 p2))]
    exact gram_cauchy_schwarz d1 d2

theorem round_mono_real {x y : ℝ} (h : x ≤ y) : round x ≤ round y := by
  rw [round_eq, round_eq]
  exact Int.floor_mono (by linarith)

theorem roundTo2_nonneg {x : ℝ} (hx : 0 ≤ x) : 0 ≤ roundTo2 x := by
  unfold roundTo2
  have h0 : (0 : ℤ) ≤ round (x * 100) := by
    have h := round_mono_real (show (0 : ℝ) ≤ x * 100 by positivity)
    rwa [round_zero] at h
  have : (0 : ℝ) ≤ ((round (x * 100) : ℤ) : ℝ) := by exact_mod_cast h0
  positivity

theorem roundTo2_le_100 {x : ℝ} (hx : x ≤ 100) : roundTo2 x ≤ 100 := by
  unfold roundTo2
  have h1 : round (x * 100) ≤ 10000 := by
    have h := round_mono_real (show x * 100 ≤ ((10000 : ℤ) : ℝ) by push_cast; linarith)
    rwa [round_intCast] at h
  rw [div_le_iff₀ (by norm_num : (0 : ℝ) < 100)]
  have : ((round (x * 100) : ℤ) : ℝ) ≤ ((10000 : ℤ) : ℝ) := by exact_mod_cast h1
  push_cast at this ⊢
  linarith

theorem roundTo2_idem (x : ℝ) : roundTo2 (roundTo2 x) = roundTo2 x := by
  unfold roundTo2
  rw [div_mul_cancel₀ _ (by norm_num : (100 : ℝ) ≠ 0), round_intCast]

theorem vocab_comm (r j : String) : vocab r j = vocab j r :=
  Finset.union_comm _ _

theorem df_comm (r j t : String) : df r j t = df j r t :=
  add_comm _ _

theorem gram_swap_corpus (r j a b : String) : gram j r a b = gram r j a b := by
  unfold gram dotV tfidfWeight
  rw [vocab_comm j r]
  exact Finset.sum_congr rfl fun t _ => by rw [df_comm j r t]

theorem gram_comm (d1 d2 a b : String) : gram d1 d2 a b = gram d1 d2 b a := by
  unfold gram dotV
  exact Finset.sum_congr rfl fun t _ => mul_comm _ _

theorem similarity_comm (r j : String) : similarity r j = similarity j r := by
  unfold similarity
  rw [gram_swap_corpus r j j j, gram_swap_corpus r j r r, gram_swap_corpus r j j r,
    gram_comm r j j r]
  by_cases h : gram r j r r = 0 ∨ gram r j j j = 0
  · rw [if_pos h, if_pos h.symm]
  · rw [if_neg h, if_neg (fun h' => h h'.symm), mul_comm (Real.sqrt (gram r j j j))]

theorem vocab_eq_empty_iff (r j : String) :
    vocab r j = ∅ ↔ analyzedTokens r = [] ∧ analyzedTokens j = [] := by
  unfold vocab
  rw [Finset.union_eq_empty, List.toFinset_eq_empty_iff, List.toFinset_eq_empty_iff]

/-! ## Claims about the similarity scorer -/

/-- C2 (counterexample): the scorer is not total on non-empty,
non-whitespace inputs.  On resume `"the"` and job `"the"` — both
non-empty and not whitespace-only — the TF-IDF vocabulary is empty (the
only token is an English stop word), `fit_transform` raises `ValueError`,
and `calculate_similarity_with_keywords` returns no `(score, keywords)`
pair. -/
theorem scorer_raises_on_pure_stopword_text :
    calculate_similarity_with_keywords "the" "the" = none ∧
    "the" ≠ "" ∧ isBlank "the" = false := by
  refine ⟨?_, by decide, by decide⟩
  unfold calculate_similarity_with_keywords
  rw [if_pos (by decide : vocab "the" "the" = ∅)]

/-- C2 (amended): `calculate_similarity_with_keywords` returns a
`(score, keywords)` pair exactly when the two texts jointly contain at
least one token (a maximal run of at least two word characters) that is
not an English stop word; on all other inputs — including non-empty,
non-whitespace ones — `fit_transform` raises and `/match` does not
produce the JSON body. -/
theorem scorer_succeeds_iff_vocab_nonempty (r j : String) :
    (calculate_similarity_with_keywords r j).isSome = true ↔
      ∃ t, t ∈ analyzedTokens r ∨ t ∈ analyzedTokens j := by
  unfold calculate_similarity_with_keywords
  by_cases h : vocab r j = ∅
  · rw [if_pos h]
    simp only [Option.isSome_none, Bool.false_eq_true, false_iff]
    obtain ⟨h1, h2⟩ := (vocab_eq_empty_iff r j).1 h
    rintro ⟨t, ht | ht⟩
    · rw [h1] at ht; exact List.not_mem_nil t ht
    · rw [h2] at ht; exact List.not_mem_nil t ht
  · rw [if_neg h]
    simp only [Option.isSome_some, true_iff]
    obtain ⟨t, ht⟩ := Finset.nonempty_iff_ne_empty.2 h
    unfold vocab at ht
    rw [Finset.mem_union] at ht
    exact ⟨t, ht.imp List.mem_toFinset.1 List.mem_toFinset.1⟩

/-- C3: whenever the scorer succeeds, the returned score lies in
`[0, 100]` and is a fixed point of rounding to two decimal places. -/
theorem score_in_range_and_rounded (r j : String) (s : ℝ) (k : Finset String)
    (h : calculate_similarity_with_keywords r j = some (s, k)) :
    0 ≤ s ∧ s ≤ 100 ∧ roundTo2 s = s := by
  unfold calculate_similarity_with_keywords at h
  split at h
  · exact absurd h (by simp)
  · simp only [Option.some_inj, Prod.mk.injEq] at h
    obtain ⟨hs, -⟩ := h
    subst hs
    have h0 : 0 ≤ similarity r j * 100 :=
      mul_nonneg (similarity_nonneg r j) (by norm_num)
    have h1 : similarity r j * 100 ≤ 100 := by
      have := similarity_le_one r j; linarith
    exact ⟨roundTo2_nonneg h0, roundTo2_le_100 h1, roundTo2_idem _⟩

/-- C3 (witness): a concrete successful pair on which the bounds and the
rounding fixed-point hold. -/
theorem score_in_range_and_rounded_witness :
    0 ≤ roundTo2 (similarity "python developer" "python engineer" * 100) ∧
    roundTo2 (similarity "python developer" "python engineer" * 100) ≤ 100 ∧
    roundTo2 (roundTo2 (similarity "python developer" "python engineer" * 100)) =
      roundTo2 (similarity "python developer" "python engineer" * 100) :=
  score_in_range_and_rounded "python developer" "python engineer" _ _
    (by unfold calculate_similarity_with_keywords
        rw [if_neg (by decide : ¬ vocab "python developer" "python engineer" = ∅)])

/-- C4: whenever the scorer succeeds, the returned keyword collection is
exactly the intersection of the lowercase whitespace-split token sets of
the two raw texts; hence it is a subset of either token set and is
symmetric in the two arguments. -/
theorem keywords_are_token_intersection (r j : String) (s : ℝ) (k : Finset String)
    (h : calculate_similarity_with_keywords r j = some (s, k)) :
    k = lowercaseTokenSet r ∩ lowercaseTokenSet j ∧
    k ⊆ lowercaseTokenSet r ∧ k ⊆ lowercaseTokenSet j ∧
    k = lowercaseTokenSet j ∩ lowercaseTokenSet r := by
  unfold calculate_similarity_with_keywords at h
  split at h
  · exact absurd h (by simp)
  · simp only [Option.some_inj, Prod.mk.injEq] at h
    obtain ⟨-, hk⟩ := h
    subst hk
    exact ⟨rfl, Finset.inter_subset_left, Finset.inter_subset_right,
      Finset.inter_comm _ _⟩

/-- C4 (witness): the characterisation applied at a concrete successful
input. -/
theorem keywords_are_token_intersection_witness :
    keywordsOf "python developer" "python engineer" =
      lowercaseTokenSet "python developer" ∩ lowercaseTokenSet "python engineer" ∧
    keywordsOf "python developer" "python engineer" ⊆ lowercaseTokenSet "python developer" ∧
    keywordsOf "python developer" "python engineer" ⊆ lowercaseTokenSet "python engineer" ∧
    keywordsOf "python developer" "python engineer" =
      lowercaseTokenSet "python engineer" ∩ lowercaseTokenSet "python developer" :=
  keywords_are_token_intersection "python developer" "python engineer" _ _
    (by unfold calculate_similarity_with_keywords
        rw [if_neg (by decide : ¬ vocab "python developer" "python engineer" = ∅)])

/-- C5: on any text containing at least one non-stop-word token, scoring
the text against itself succeeds and returns exactly 100. -/
theorem self_similarity_score_100 (A : String)
    (h : ∃ t ∈ sklearnTokenize A, t ∉ englishStopWords) :
    calculate_similarity_with_keywords A A = some (100, keywordsOf A A) := by
  obtain ⟨t, ht, hstop⟩ := h
  have htA : t ∈ analyzedTokens A := by
    unfold analyzedTokens
    rw [List.mem_filter]
    exact ⟨ht, by simpa using hstop⟩
  have htv : t ∈ vocab A A := by
    unfold vocab
    rw [Finset.mem_union]
    exact Or.inl (List.mem_toFinset.2 htA)
  have hvocab : vocab A A ≠ ∅ := fun he => by rw [he] at htv; exact absurd htv (by simp)
  have hdf : df A A t = 2 := by unfold df; rw [if_pos htA]
  have hidf : idf 2 = 1 := by
    unfold idf
    norm_num
  have htf : 0 < tf A t := by
    unfold tf
    exact List.count_pos_iff.2 htA
  have hw : 0 < tfidfWeight A A A t := by
    unfold tfidfWeight
    rw [hdf, hidf, mul_one]
    exact_mod_cast htf
  have hQ : 0 < gram A A A A := by
    unfold gram dotV
    exact Finset.sum_pos' (fun x _ => mul_self_nonneg _) ⟨t, htv, mul_pos hw hw⟩
  have hsim : similarity A A = 1 := by
    unfold similarity
    rw [if_neg (by push_neg; exact ⟨ne_of_gt hQ, ne_of_gt hQ⟩)]
    rw [Real.mul_self_sqrt hQ.le]
    exact div_self (ne_of_gt hQ)
  unfold calculate_similarity_with_keywords
  rw [if_neg hvocab, hsim]
  have h100 : roundTo2 ((1 : ℝ) * 100) = 100 := by
    unfold roundTo2
    rw [show ((1 : ℝ) * 100 * 100) = ((10000 : ℤ) : ℝ) by norm_num, round_intCast]
    norm_num
  rw [h100]

/-- C5 (witness): the self-score of a concrete non-trivial text is
exactly 100. -/
theorem self_similarity_score_100_witness :
    calculate_similarity_with_keywords "python developer" "python developer" =
      some (100, keywordsOf "python developer" "python developer") :=
  self_similarity_score_100 "python developer" (by decide)

/-- C6: the score is symmetric — when scoring `(r, j)` succeeds with
score `s`, scoring `(j, r)` also succeeds with the same score. -/
theorem score_symmetric (r j : String) (s : ℝ) (k : Finset String)
    (h : calculate_similarity_with_keywords r j = some (s, k)) :
    ∃ k', calculate_similarity_with_keywords j r = some (s, k') := by
  unfold calculate_similarity_with_keywords at h ⊢
  split at h
  · exact absurd h (by simp)
  · rename_i hne
    simp only [Option.some_inj, Prod.mk.injEq] at h
    obtain ⟨hs, -⟩ := h
    refine ⟨keywordsOf j r, ?_⟩
    rw [if_neg (by rw [vocab_comm j r]; exact hne), similarity_comm j r, hs]

/-- C6 (witness): symmetry applied at a concrete input pair. -/
theorem score_symmetric_witness :
    ∃ k', calculate_similarity_with_keywords "python engineer" "python developer" =
      some (roundTo2 (similarity "python developer" "python engineer" * 100), k') :=
  score_symmetric "python developer" "python engineer" _ _
    (by unfold calculate_similarity_with_keywords
        rw [if_neg (by decide : ¬ vocab "python developer" "python engineer" = ∅)])

/-! ## Claim C1: Comparison persistence frame -/

theorem match_resume_frame (req : MatchRequest) (st : DBState)
    (hid : req.resume_id = none ∨ req.job_id = none) :
    (match_resume req st).2.comparisons = st.comparisons := by
  unfold match_resume
  split
  · rfl
  · cases hcs : calculate_similarity_with_keywords req.resume req.job with
    | none => rfl
    | some p =>
      obtain ⟨score, kws⟩ := p
      have hfalse : (pyTruthyOptInt req.resume_id && pyTruthyOptInt req.job_id) = false := by
        rcases hid with h | h <;> rw [h] <;> simp [pyTruthyOptInt]
      rw [hfalse]
      rfl

theorem match_multiple_loop_frame (resume_text : String) (jobs : List (String × String))
    (st : DBState) :
    (match_multiple_loop resume_text none jobs st).2.comparisons = st.comparisons := by
  cases jobs with
  | nil => rfl
  | cons job rest =>
    obtain ⟨title, desc⟩ := job
    unfold match_multiple_loop
    cases hcs : calculate_similarity_with_keywords resume_text desc with
    | none => rfl
    | some p => obtain ⟨score, kws⟩ := p; rfl

theorem match_multiple_frame (req : MultiMatchRequest) (st : DBState)
    (hid : req.resume_id = none) :
    (match_multiple req st).2.comparisons = st.comparisons := by
  unfold match_multiple
  split
  · rfl
  · have h := match_multiple_loop_frame req.resume req.jobs st
    rw [← hid] at h
    split
    · rename_i rs st' heq
      rw [heq] at h
      exact h
    · rename_i e st' heq
      rw [heq] at h
      exact h

/-- C1: a match request stores a `Comparison` only when the references
are supplied.  For `/match`, if `resume_id` or `job_id` is absent the
stored comparisons are unchanged; for `/match_multiple`, if `resume_id`
is absent they are unchanged (the `NOT NULL` column makes the insert
fail); contrapositively, a `Comparison` is created only when the
references are present in the request. -/
theorem comparison_only_with_refs (req : MatchRequest) (mreq : MultiMatchRequest)
    (st st' : DBState) :
    ((req.resume_id = none ∨ req.job_id = none) →
        (match_resume req st).2.comparisons = st.comparisons) ∧
    (mreq.resume_id = none →
        (match_multiple mreq st').2.comparisons = st'.comparisons) ∧
    ((match_resume req st).2.comparisons ≠ st.comparisons →
        req.resume_id ≠ none ∧ req.job_id ≠ none) ∧
    ((match_multiple mreq st').2.comparisons ≠ st'.comparisons →
        mreq.resume_id ≠ none) :=
  ⟨match_resume_frame req st,
   match_multiple_frame mreq st',
   fun hch =>
     ⟨fun he => hch (match_resume_frame req st (Or.inl he)),
      fun he => hch (match_resume_frame req st (Or.inr he))⟩,
   fun hch he => hch (match_multiple_frame mreq st' he)⟩

/-- C1 (witness): concrete `/match` and `/match_multiple` calls without
ids leave the comparisons table unchanged. -/
theorem comparison_only_with_refs_witness :
    (match_resume ⟨"python developer", "python engineer", none, none⟩ emptyDB).2.comparisons =
      emptyDB.comparisons ∧
    (match_multiple ⟨"python developer", [("role", "python engineer")], none⟩
        emptyDB).2.comparisons = emptyDB.comparisons :=
  ⟨(comparison_only_with_refs ⟨"python developer", "python engineer", none, none⟩
      ⟨"python developer", [("role", "python engineer")], none⟩ emptyDB emptyDB).1
      (Or.inl rfl),
   (comparison_only_with_refs ⟨"python developer", "python engineer", none, none⟩
      ⟨"python developer", [("role", "python engineer")], none⟩ emptyDB emptyDB).2.1 rfl⟩

/-! ## Lemmas about the upload pipeline -/

theorem pyEndsWith_docx_not_pdf (s : String) (h : pyEndsWith s ".docx" = true) :
    pyEndsWith s ".pdf" = false := by
  unfold pyEndsWith at h ⊢
  rw [show (".docx" : String).data = ['.', 'd', 'o', 'c', 'x'] from rfl] at h
  rw [show (".pdf" : String).data = ['.', 'p', 'd', 'f'] from rfl]
  rw [show (['.', 'd', 'o', 'c', 'x'] : List Char).length = 5 from rfl] at h
  rw [show (['.', 'p', 'd', 'f'] : List Char).length = 4 from rfl]
  rw [beq_iff_eq] at h
  have hlen := congrArg List.length h
  rw [List.length_drop,
    show (['.', 'd', 'o', 'c', 'x'] : List Char).length = 5 from rfl] at hlen
  rw [beq_eq_false_iff_ne]
  intro hcontra
  have hdd : (s.data.drop (s.data.length - 5)).drop 1 = s.data.drop (s.data.length - 4) := by
    rw [List.drop_drop]
    congr 1
    omega
  rw [h, hcontra] at hdd
  exact absurd hdd (by decide)

theorem foldl_lines (l : List String) : ∀ init : String,
    l.foldl (fun text s => if !isBlank s then text ++ s ++ "\n" else text) init
      = init ++ concatLines l := by
  induction l with
  | nil =>
    intro init
    rw [List.foldl_nil, show concatLines [] = "" from rfl, String.append_empty]
  | cons x xs ih =>
    intro init
    rw [List.foldl_cons]
    cases hx : isBlank x with
    | false =>
      have hcl : concatLines (x :: xs) = (x ++ "\n") ++ concatLines xs := by
        unfold concatLines
        rw [List.filter_cons]
        simp [hx]
      rw [show (if (!false) = true then init ++ x ++ "\n" else init) = init ++ x ++ "\n"
        from rfl, ih, hcl]
      simp [String.append_assoc]
    | true =>
      have hcl : concatLines (x :: xs) = concatLines xs := by
        unfold concatLines
        rw [List.filter_cons]
        simp [hx]
      rw [show (if (!true) = true then init ++ x ++ "\n" else init) = init from rfl, ih, hcl]

theorem concatLines_append (l1 l2 : List String) :
    concatLines (l1 ++ l2) = concatLines l1 ++ concatLines l2 := by
  unfold concatLines
  rw [List.filter_append, List.map_append]
  induction ((l1.filter (fun s => !isBlank s)).map (fun s => s ++ "\n")) with
  | nil => rw [List.nil_append, List.foldr_nil, String.empty_append]
  | cons x xs ih => rw [List.cons_append, List.foldr_cons, List.foldr_cons, ih,
      String.append_assoc]

theorem table_fold_eq (tbl : List (List String)) : ∀ init : String,
    tbl.foldl
      (fun text row =>
        row.foldl (fun text cell => if !isBlank cell then text ++ cell ++ "\n" else text)
          text)
      init = init ++ concatLines tbl.flatten := by
  induction tbl with
  | nil =>
    intro init
    rw [List.foldl_nil,
      show concatLines (([] : List (List String)).flatten) = "" from rfl,
      String.append_empty]
  | cons row rows ih =>
    intro init
    rw [List.foldl_cons, foldl_lines row init, ih, List.flatten_cons, concatLines_append,
      String.append_assoc]

theorem tables_fold_eq (tables : List (List (List String))) : ∀ init : String,
    tables.foldl
      (fun text tbl =>
        tbl.foldl
          (fun text row =>
            row.foldl (fun text cell => if !isBlank cell then text ++ cell ++ "\n" else text)
              text)
          text)
      init = init ++ concatLines ((tables.map (fun tbl => tbl.flatten)).flatten) := by
  induction tables with
  | nil =>
    intro init
    rw [List.foldl_nil, show concatLines ((([] : List (List (List String))).map
      (fun tbl => tbl.flatten)).flatten) = "" from rfl, String.append_empty]
  | cons tbl rest ih =>
    intro init
    rw [List.foldl_cons, table_fold_eq tbl init, ih, List.map_cons, List.flatten_cons,
      concatLines_append, String.append_assoc]

theorem extractDocx_eq_spec (doc : DocxDoc) : extractDocx doc = specDocxExtract doc := by
  unfold extractDocx specDocxExtract docxCellTexts
  rw [foldl_lines doc.paragraphs "", tables_fold_eq doc.tables, String.empty_append]

/-! ## Claims about `/upload_resume` -/

/-- C7 (counterexample): a zero-byte `.pdf` upload does not produce the
distinct "no text extracted" response — `pdfplumber` raises on the
invalid stream, so the handler answers with the generic parse-failure
body instead. -/
theorem zero_byte_pdf_not_noText :
    (upload_resume pdfplumberRaises docxDocumentRaises (some ("cv.pdf", [])) emptyDB).1 =
      .extractionFailed "No /Root object! - Is this really a PDF?" ∧
    (upload_resume pdfplumberRaises docxDocumentRaises (some ("cv.pdf", [])) emptyDB).1 ≠
      UploadResult.noText := by
  decide

/-- C7 (amended): uploading a zero-byte file of any extension yields an
HTTP 500 and persists no `Resume` row, never a 200; the body is the
distinct "no text extracted" error for extensions other than
`.pdf`/`.docx`, while for `.pdf`/`.docx` the library parser raises on
the empty stream and the body is the generic "Failed to extract text"
error carrying that parser's message. -/
theorem zero_byte_upload_500_no_persist
    (pdfParse : List UInt8 → Except String (List PdfPage))
    (docxParse : List UInt8 → Except String DocxDoc)
    (ep ed fname : String) (st : DBState)
    (hp : pdfParse [] = .error ep) (hd : docxParse [] = .error ed) :
    (upload_resume pdfParse docxParse (some (fname, [])) st).1.status = 500 ∧
    (upload_resume pdfParse docxParse (some (fname, [])) st).2.resumes = st.resumes ∧
    (pyEndsWith (pyLower fname) ".pdf" = false →
      pyEndsWith (pyLower fname) ".docx" = false →
      (upload_resume pdfParse docxParse (some (fname, [])) st).1 = UploadResult.noText) ∧
    (pyEndsWith (pyLower fname) ".pdf" = true →
      (upload_resume pdfParse docxParse (some (fname, [])) st).1 =
        UploadResult.extractionFailed ep) ∧
    (pyEndsWith (pyLower fname) ".docx" = true →
      (upload_resume pdfParse docxParse (some (fname, [])) st).1 =
        UploadResult.extractionFailed ed) := by
  by_cases h1 : pyEndsWith (pyLower fname) ".pdf" = true
  · have hpair : upload_resume pdfParse docxParse (some (fname, [])) st =
        (.extractionFailed ep, st) := by
      unfold upload_resume extractUploadText
      simp [h1, hp, Except.map]
    rw [hpair]
    refine ⟨rfl, rfl, ?_, fun _ => rfl, ?_⟩
    · intro h1' _
      rw [h1] at h1'
      simp at h1'
    · intro hdx
      exact absurd h1 (by simp [pyEndsWith_docx_not_pdf _ hdx])
  · by_cases h2 : pyEndsWith (pyLower fname) ".docx" = true
    · have hpair : upload_resume pdfParse docxParse (some (fname, [])) st =
          (.extractionFailed ed, st) := by
        unfold upload_resume extractUploadText
        simp [h1, h2, hd, Except.map]
      rw [hpair]
      refine ⟨rfl, rfl, ?_, ?_, fun _ => rfl⟩
      · intro _ h2'
        rw [h2] at h2'
        simp at h2'
      · intro h1'
        exact absurd h1' h1
    · have hpair : upload_resume pdfParse docxParse (some (fname, [])) st =
          (.noText, st) := by
        unfold upload_resume extractUploadText
        simp [h1, h2, utf8DecodeIgnore, utf8DecodeAux, isBlank]
      rw [hpair]
      refine ⟨rfl, rfl, fun _ _ => rfl, ?_, ?_⟩
      · intro h1'
        exact absurd h1' h1
      · intro h2'
        exact absurd h2' h2

/-- C7 (witness): a concrete zero-byte upload with a non-PDF, non-DOCX
extension and the modelled library parsers answers the distinct "no text
extracted" 500 and persists nothing. -/
theorem zero_byte_upload_500_no_persist_witness :
    (upload_resume pdfplumberRaises docxDocumentRaises (some ("resume.txt", [])) emptyDB).1.status
        = 500 ∧
    (upload_resume pdfplumberRaises docxDocumentRaises (some ("resume.txt", [])) emptyDB).2.resumes
        = emptyDB.resumes ∧
    (upload_resume pdfplumberRaises docxDocumentRaises (some ("resume.txt", [])) emptyDB).1
        = UploadResult.noText :=
  ⟨(zero_byte_upload_500_no_persist pdfplumberRaises docxDocumentRaises _ _ "resume.txt"
      emptyDB rfl rfl).1,
   (zero_byte_upload_500_no_persist pdfplumberRaises docxDocumentRaises _ _ "resume.txt"
      emptyDB rfl rfl).2.1,
   (zero_byte_upload_500_no_persist pdfplumberRaises docxDocumentRaises _ _ "resume.txt"
      emptyDB rfl rfl).2.2.1 (by decide) (by decide)⟩

/-- C8: for any filename ending in neither `.pdf` nor `.docx` (after
lowercasing), the handler returns the file's bytes decoded as UTF-8 with
undecodable sequences ignored, unchanged, provided the decode is not
whitespace-only. -/
theorem plain_upload_returns_decode
    (pdfParse : List UInt8 → Except String (List PdfPage))
    (docxParse : List UInt8 → Except String DocxDoc)
    (fname : String) (bytes : List UInt8) (st : DBState)
    (h1 : pyEndsWith (pyLower fname) ".pdf" = false)
    (h2 : pyEndsWith (pyLower fname) ".docx" = false)
    (h3 : isBlank (String.mk (utf8DecodeIgnore bytes)) = false) :
    (upload_resume pdfParse docxParse (some (fname, bytes)) st).1 =
      .success (String.mk (utf8DecodeIgnore bytes)) st.nextResumeId := by
  unfold upload_resume extractUploadText
  simp [h1, h2, h3]

/-- C8 (witness): a concrete plain-text upload, with an undecodable byte
(0xFF) dropped by the decoder. -/
theorem plain_upload_returns_decode_witness :
    (upload_resume pdfplumberRaises docxDocumentRaises
        (some ("notes.txt", [72, 255, 105])) emptyDB).1 =
      .success (String.mk (utf8DecodeIgnore [72, 255, 105])) emptyDB.nextResumeId :=
  plain_upload_returns_decode pdfplumberRaises docxDocumentRaises "notes.txt"
    [72, 255, 105] emptyDB (by decide) (by decide) (by decide)

/-- C9: DOCX extraction returns exactly the non-blank paragraph texts
followed by the non-blank table cell texts (tables, then rows, then
cells, in document order), each with a trailing newline; for a document
with no paragraphs the result is exactly the newline-terminated
non-blank cell texts; and a successful `.docx` upload returns that text.
-/
theorem docx_extraction_matches_spec (doc : DocxDoc) :
    extractDocx doc = specDocxExtract doc ∧
    (doc.paragraphs = [] → extractDocx doc = concatLines (docxCellTexts doc)) ∧
    (∀ (pdfParse : List UInt8 → Except String (List PdfPage))
        (docxParse : List UInt8 → Except String DocxDoc)
        (fname : String) (bytes : List UInt8) (st : DBState),
      pyEndsWith (pyLower fname) ".docx" = true →
      docxParse bytes = .ok doc →
      isBlank (extractDocx doc) = false →
      (upload_resume pdfParse docxParse (some (fname, bytes)) st).1 =
        .success (specDocxExtract doc) st.nextResumeId) := by
  refine ⟨extractDocx_eq_spec doc, ?_, ?_⟩
  · intro hp
    rw [extractDocx_eq_spec doc]
    unfold specDocxExtract
    rw [hp, show concatLines ([] : List String) = "" from rfl, String.empty_append]
  · intro pdfParse docxParse fname bytes st hdocx hparse hblank
    unfold upload_resume extractUploadText
    rw [← extractDocx_eq_spec doc]
    simp [pyEndsWith_docx_not_pdf _ hdocx, hdocx, hparse, hblank, Except.map]

/-- C9 (witness): a concrete tables-only DOCX upload returning exactly
the newline-terminated cell texts. -/
theorem docx_extraction_matches_spec_witness :
    (upload_resume pdfplumberRaises (docxParseConst ⟨[], [[["Python"], ["SQL"]]]⟩)
        (some ("cv.docx", [])) emptyDB).1 =
      .success (specDocxExtract ⟨[], [[["Python"], ["SQL"]]]⟩) emptyDB.nextResumeId :=
  (docx_extraction_matches_spec ⟨[], [[["Python"], ["SQL"]]]⟩).2.2 pdfplumberRaises
    (docxParseConst ⟨[], [[["Python"], ["SQL"]]]⟩) "cv.docx" [] emptyDB
    (by decide) rfl (by decide)

/-- C10: the filename is lowercased before the extension dispatch — any
filename whose lowercasing ends in `.pdf` takes the PDF branch, likewise
for `.docx` — and the `Resume` row persisted on success stores the
lowercased filename. -/
theorem extension_dispatch_lowercased
    (pdfParse : List UInt8 → Except String (List PdfPage))
    (docxParse : List UInt8 → Except String DocxDoc)
    (fname : String) (bytes : List UInt8) (st : DBState) :
    (pyEndsWith (pyLower fname) ".pdf" = true →
      extractUploadText pdfParse docxParse (pyLower fname) bytes =
        (pdfParse bytes).map extractPdfPages) ∧
    (pyEndsWith (pyLower fname) ".docx" = true →
      extractUploadText pdfParse docxParse (pyLower fname) bytes =
        (docxParse bytes).map extractDocx) ∧
    (∀ (t : String) (i : ℕ),
      (upload_resume pdfParse docxParse (some (fname, bytes)) st).1 = .success t i →
      (upload_resume pdfParse docxParse (some (fname, bytes)) st).2.resumes =
        st.resumes ++ [⟨st.nextResumeId, pyLower fname, t⟩]) := by
  refine ⟨?_, ?_, ?_⟩
  · intro h
    unfold extractUploadText
    simp [h]
  · intro h
    unfold extractUploadText
    simp [pyEndsWith_docx_not_pdf _ h, h]
  · intro t i h
    unfold upload_resume at h ⊢
    cases hext : extractUploadText pdfParse docxParse (pyLower fname) bytes with
    | error e =>
      simp only [hext] at h
      exact absurd h (by simp)
    | ok text =>
      simp only [hext] at h ⊢
      by_cases hb : isBlank text = true
      · simp [hb] at h
      · rw [if_neg hb] at h ⊢
        simp only [UploadResult.success.injEq] at h
        rw [h.1]

/-- C10 (witness): the dispatch at the uppercase filename `CV.PDF`. -/
theorem extension_dispatch_lowercased_witness :
    extractUploadText pdfplumberRaises docxDocumentRaises (pyLower "CV.PDF") [] =
      (pdfplumberRaises []).map extractPdfPages :=
  (extension_dispatch_lowercased pdfplumberRaises docxDocumentRaises "CV.PDF" [] emptyDB).1
    (by decide)

end ResumeScreener
